import Mathlib

/-!
Shallow embedding of the XML Encryption engine (xmlenc.c) and of the XSLT
transform stage of the xmlsec library, together with theorems settling the
stated properties of this code.
-/

namespace XmlSec

/-- Error kinds reported through the library's error reporting
(xmlSecError with an XMLSEC_ERRORS_R_* code). -/
inductive ErrKind where
  | mallocFailed
  | xmlsecFailed
  | xmlFailed
  | xsltFailed
  | invalidNode
  | unexpectedNode
  | invalidNodeContent
  | invalidData
  | invalidType
  | invalidStatus
  | keyNotFound
  | invalidUri
  | assertionFailed
  deriving DecidableEq, Repr

/-- A reported error: its kind plus the node name carried in the structured
annotation (the node=... message argument), when one is present. -/
structure Err where
  kind : ErrKind
  node : Option String := none
  deriving DecidableEq, Repr

/-- Modelled from the spec: the source's macro-based error reporting
(xmlSecAssert2, acknowledged in section 9 of the specification as "the
source's macro-based error reporting") checks a precondition and, when the
precondition fails, reports an error and makes the function return its
failure value.  The macro's own definition (errors.h) is not among the
provided sources; we model the reported precondition failure as a
distinguished error kind. -/
def assertErr : Err := { kind := .assertionFailed }

/-- Transform status (xmlSecTransformStatus): None, Working, Finished,
plus a failed state for any other status value. -/
inductive TStatus where
  | statusNone
  | working
  | finished
  | failed
  deriving DecidableEq, Repr

/-- State of an XSLT transform instance: the generic transform fields used
by xmlSecXsltExecute (status, inBuf, outBuf) together with the per-klass
context xmlSecXsltCtx, whose single field xslt (the compiled stylesheet)
is abstracted as a numeric handle. -/
structure XsltTransform where
  status : TStatus := .statusNone
  inBuf : List Nat := []
  outBuf : List Nat := []
  xslt : Option Nat := none
  deriving DecidableEq, Repr

/-- xmlSecXsltReadNode (part_000, lines 154-215): serialize the transform
node's children into a buffer (the serialized bytes are passed in directly,
xmlNodeDump being a DOM collaborator), parse the buffer as an XML document
(xmlSecParseMemory, reported failure kind XMLSEC_FAILED at line 192), and
compile the document into a stylesheet (xsltParseStylesheetDoc, reported
failure kind XSLT_FAILED at line 204).  A failure of xmlBufferCreate is
reported as XML_FAILED (line 175).  The parser and compiler are
collaborators outside this file and are passed as oracles. -/
def xmlSecXsltReadNode (bufferCreateOk : Bool) (parse : List Nat → Option Nat)
    (compile : Nat → Option Nat) (t : XsltTransform) (serialized : List Nat) :
    Except Err XsltTransform :=
  if t.xslt.isSome then .error assertErr
  else if ¬ bufferCreateOk then .error { kind := .xmlFailed }
  else
    match parse serialized with
    | none => .error { kind := .xmlsecFailed }
    | some doc =>
      match compile doc with
      | none => .error { kind := .xsltFailed }
      | some ss => .ok { t with xslt := some ss }

/-- xmlSecXsltExecute (part_000, lines 217-281).  The stylesheet
application xmlSecXslProcess is passed as an oracle proc from the full
input buffer to the produced output bytes (or failure); a proc failure is
reported as XMLSEC_FAILED.  xmlSecBufferRemoveHead(in, inSize) removes the
first inSize bytes of inBuf (it cannot fail on a buffer of size inSize). -/
def xmlSecXsltExecute (proc : List Nat → Option (List Nat)) (t : XsltTransform)
    (last : Bool) : Except Err XsltTransform :=
  if t.xslt.isNone then .error assertErr
  else
    let inSize := t.inBuf.length
    let outSize := t.outBuf.length
    let t := if t.status = TStatus.statusNone then { t with status := .working } else t
    if t.status = TStatus.working ∧ last = false then
      if outSize = 0 then .ok t else .error assertErr
    else if t.status = TStatus.working ∧ last = true then
      if outSize = 0 then
        match proc t.inBuf with
        | none => .error { kind := .xmlsecFailed }
        | some out =>
          .ok { t with inBuf := t.inBuf.drop inSize, outBuf := out,
                       status := .finished }
      else .error assertErr
    else if t.status = TStatus.finished then
      if inSize = 0 then .ok t else .error assertErr
    else .error { kind := .invalidStatus }

/-- Push one chunk of bytes into the transform's input buffer (the default
pushBin appends incoming bytes to inBuf) and call execute with last=false;
repeat for every chunk of the list. -/
def xsltFeedRun (proc : List Nat → Option (List Nat)) :
    XsltTransform → List (List Nat) → Except Err XsltTransform
  | t, [] => .ok t
  | t, c :: cs =>
    match xmlSecXsltExecute proc { t with inBuf := t.inBuf ++ c } false with
    | .error e => .error e
    | .ok t' => xsltFeedRun proc t' cs

/-- Feed the chunks with execute(last=false) after each, then push the
final chunk and call execute(last=true) once. -/
def xsltFullRun (proc : List Nat → Option (List Nat)) (t : XsltTransform)
    (chunks : List (List Nat)) (lastC : List Nat) : Except Err XsltTransform :=
  match xsltFeedRun proc t chunks with
  | .error e => .error e
  | .ok t' => xmlSecXsltExecute proc { t' with inBuf := t'.inBuf ++ lastC } true

/-- An XML element node: name, namespace, attributes, element children (in
document order — xmlSecGetNextElementNode skips non-element nodes, so only
element children are modelled) and the node's text content
(xmlNodeGetContent, which is total here). -/
inductive XmlNode where
  | mk (name : String) (ns : String) (attrs : List (String × String))
       (children : List XmlNode) (content : String)

def XmlNode.name : XmlNode → String
  | .mk n _ _ _ _ => n

def XmlNode.ns : XmlNode → String
  | .mk _ s _ _ _ => s

def XmlNode.attrs : XmlNode → List (String × String)
  | .mk _ _ a _ _ => a

def XmlNode.children : XmlNode → List XmlNode
  | .mk _ _ _ c _ => c

def XmlNode.content : XmlNode → String
  | .mk _ _ _ _ t => t

/-- xmlGetProp: look up an attribute value by attribute name. -/
def xmlGetProp (n : XmlNode) (a : String) : Option String :=
  (n.attrs.find? (fun p => p.1 == a)).map (fun p => p.2)

/-- xmlSecCheckNodeName: the node has the given local name and namespace. -/
def xmlSecCheckNodeName (n : XmlNode) (name ns : String) : Bool :=
  n.name == name && n.ns == ns

def xmlSecEncNs : String := "http://www.w3.org/2001/04/xmlenc#"
def xmlSecDSigNs : String := "http://www.w3.org/2000/09/xmldsig#"
def xmlSecTypeEncElement : String := "http://www.w3.org/2001/04/xmlenc#Element"
def xmlSecTypeEncContent : String := "http://www.w3.org/2001/04/xmlenc#Content"
def xmlSecNodeEncryptionMethod : String := "EncryptionMethod"
def xmlSecNodeKeyInfo : String := "KeyInfo"
def xmlSecNodeCipherData : String := "CipherData"
def xmlSecNodeCipherValue : String := "CipherValue"
def xmlSecNodeCipherReference : String := "CipherReference"
def xmlSecNodeEncryptionProperties : String := "EncryptionProperties"
def xmlSecNodeReferenceList : String := "ReferenceList"
def xmlSecNodeCarriedKeyName : String := "CarriedKeyName"
def xmlSecNodeTransforms : String := "Transforms"
def xmlSecAttrId : String := "Id"
def xmlSecAttrType : String := "Type"
def xmlSecAttrMimeType : String := "MimeType"
def xmlSecAttrEncoding : String := "Encoding"
def xmlSecAttrRecipient : String := "Recipient"
def xmlSecAttrURI : String := "URI"

/-- A key resolved by the key manager, abstracted to an identifier. -/
structure Key where
  keyId : Nat
  deriving DecidableEq, Repr

/-- A key requirement produced by the cipher's setKeyReq, abstracted. -/
structure KeyReq where
  reqId : Nat
  deriving DecidableEq, Repr

/-- Transform klasses relevant to the encryption context: the base64 codec
(created directly from xmlSecTransformBase64Id), an encryption-method
transform instantiated from the registry (whose usage check means an
EncryptionMethod lookup never yields the base64 klass), and a DSig
transform from a CipherReference Transforms list. -/
inductive TKlass where
  | base64
  | cipher (i : Nat)
  | dsigT (i : Nat)
  deriving DecidableEq, Repr

/-- A transform instance: its klass, its encode flag and the key set on it
(meaningful for the encryption method). -/
structure Transform where
  klass : TKlass
  encode : Bool := false
  key : Option Key := none
  deriving DecidableEq, Repr

inductive EncCtxMode where
  | encryptedData
  | encryptedKey
  deriving DecidableEq, Repr

/-- The encryption context xmlSecEncCtx.  The transform context
encTransformCtx is modelled by its chain of transforms together with the
URI installed by xmlSecTransformCtxSetUri; the key-info subordinate
contexts are collaborators whose only modelled state is the key
requirement flow. -/
structure EncCtx where
  mode : EncCtxMode := .encryptedData
  encrypt : Bool := false
  dontDestroyEncMethod : Bool := false
  encMethod : Option Transform := none
  encKey : Option Key := none
  id : Option String := none
  type : Option String := none
  mimeType : Option String := none
  encoding : Option String := none
  recipient : Option String := none
  carriedKeyName : Option String := none
  encMethodNode : Option XmlNode := none
  keyInfoNode : Option XmlNode := none
  cipherValueNode : Option XmlNode := none
  replaced : Bool := false
  resultBase64Encoded : Bool := false
  encResult : Option String := none
  chain : List Transform := []
  uri : Option String := none

/-- The collaborators of the encryption context that live outside
xmlenc.c (transform registry, key manager, DOM replacement helpers, chain
execution), passed as oracles. -/
structure EncEnv where
  nodeRead : XmlNode → Option Nat
  listRead : XmlNode → Option (List Nat)
  setUriOk : String → Bool
  setKeyReq : Transform → Option KeyReq
  keyMatch : Key → KeyReq → Bool
  setKeyOk : Transform → Key → Bool
  binExec : List Transform → String → Option String
  docExec : List Transform → Option String → Option String
  prepareOk : Bool
  dumpNode : XmlNode → String
  replaceNodeOk : Bool
  replaceContentOk : Bool
  replaceNodeBufferOk : Bool
  keyInfoWriteOk : Bool
  getKey : Option (XmlNode → Option Key)

/-- xmlSecEncCtxCipherReferenceNodeRead (xmlenc.c, lines 817-870): read
the optional URI attribute through xmlSecTransformCtxSetUri (whose policy
check can fail), then an optional Transforms child whose transforms are
read into the chain; any further element is an UNEXPECTED_NODE error. -/
def xmlSecEncCtxCipherReferenceNodeRead (env : EncEnv) (ctx : EncCtx)
    (node : XmlNode) : Except Err EncCtx :=
  let step1 : Except Err EncCtx :=
    match xmlGetProp node xmlSecAttrURI with
    | some u =>
      if env.setUriOk u then .ok { ctx with uri := some u }
      else .error { kind := .xmlsecFailed }
    | none => .ok ctx
  match step1 with
  | .error e => .error e
  | .ok ctx =>
    match node.children with
    | [] => .ok ctx
    | c :: rest =>
      if xmlSecCheckNodeName c xmlSecNodeTransforms xmlSecEncNs then
        match env.listRead c with
        | none => .error { kind := .xmlsecFailed }
        | some ids =>
          let ctx := { ctx with
            chain := ctx.chain ++ ids.map (fun i => ({ klass := .dsigT i } : Transform)) }
          if rest.isEmpty then .ok ctx
          else .error { kind := .unexpectedNode, node := rest.head?.map XmlNode.name }
      else .error { kind := .unexpectedNode, node := some c.name }

/-- xmlSecEncCtxCipherDataNodeRead (xmlenc.c, lines 759-815): the
CipherData node's first element child may be a CipherValue (recorded; for
decryption a base64 decoder is prepended to the chain first) or a
CipherReference (read only when decrypting); any element after it is an
INVALID_NODE error, and a CipherData with no element children is
accepted unchanged. -/
def xmlSecEncCtxCipherDataNodeRead (env : EncEnv) (ctx : EncCtx)
    (node : XmlNode) : Except Err EncCtx :=
  if ctx.cipherValueNode.isSome then .error assertErr
  else
    match node.children with
    | [] => .ok ctx
    | c :: rest =>
      if xmlSecCheckNodeName c xmlSecNodeCipherValue xmlSecEncNs then
        let ctx :=
          if ctx.encrypt = false then
            { ctx with chain := ({ klass := .base64 } : Transform) :: ctx.chain }
          else ctx
        let ctx := { ctx with cipherValueNode := some c }
        if rest.isEmpty then .ok ctx
        else .error { kind := .invalidNode, node := rest.head?.map XmlNode.name }
      else if xmlSecCheckNodeName c xmlSecNodeCipherReference xmlSecEncNs then
        if ctx.encrypt = false then
          match xmlSecEncCtxCipherReferenceNodeRead env ctx c with
          | .error e => .error e
          | .ok ctx2 =>
            if rest.isEmpty then .ok ctx2
            else .error { kind := .invalidNode, node := rest.head?.map XmlNode.name }
        else
          if rest.isEmpty then .ok ctx
          else .error { kind := .invalidNode, node := rest.head?.map XmlNode.name }
      else .error { kind := .invalidNode, node := some c.name }

/-- One step of the element-child walk of encDataNodeRead: when the walk
position starts with a child of the given name and namespace, return it
and advance; otherwise stay. -/
def findOptionalChild (name ns : String) (cur : List XmlNode) :
    Option XmlNode × List XmlNode :=
  match cur with
  | c :: rest =>
    if xmlSecCheckNodeName c name ns then (some c, rest) else (none, c :: rest)
  | [] => (none, [])

/-- Skip an optional (and ignored) child, keeping only the walk position. -/
def skipOptionalChild (name ns : String) (cur : List XmlNode) : List XmlNode :=
  (findOptionalChild name ns cur).2

/-- The walk position at which the required CipherData child must sit: the
node's element children after the optional EncryptionMethod and the
optional dsig KeyInfo. -/
def childrenAtCipherData (node : XmlNode) : List XmlNode :=
  skipOptionalChild xmlSecNodeKeyInfo xmlSecDSigNs
    (skipOptionalChild xmlSecNodeEncryptionMethod xmlSecEncNs node.children)

/-- First part of xmlSecEncCtxEncDataNodeRead (xmlenc.c, lines 524-623):
read the node's attributes and walk its element children in the required
order — optional EncryptionMethod, optional dsig KeyInfo, required
CipherData (INVALID_NODE naming CipherData when missing), optional
EncryptionProperties, and for EncryptedKey mode optional ReferenceList
and CarriedKeyName — rejecting any leftover element with
UNEXPECTED_NODE.  The entry assertions guarantee encMethodNode and
keyInfoNode are unset, so recording the found children by overwriting
the fields matches the C assignments. -/
def encDataNodeReadStructure (env : EncEnv) (ctx : EncCtx) (node : XmlNode) :
    Except Err EncCtx :=
  if ctx.id.isSome || ctx.type.isSome || ctx.mimeType.isSome ||
      ctx.encoding.isSome || ctx.recipient.isSome ||
      ctx.carriedKeyName.isSome || ctx.encMethodNode.isSome ||
      ctx.keyInfoNode.isSome then .error assertErr
  else
    let ctx := { ctx with
      id := xmlGetProp node xmlSecAttrId,
      type := xmlGetProp node xmlSecAttrType,
      mimeType := xmlGetProp node xmlSecAttrMimeType,
      encoding := xmlGetProp node xmlSecAttrEncoding,
      recipient := if ctx.mode = EncCtxMode.encryptedKey then
        xmlGetProp node xmlSecAttrRecipient else none,
      encMethodNode :=
        (findOptionalChild xmlSecNodeEncryptionMethod xmlSecEncNs
          node.children).1,
      keyInfoNode :=
        (findOptionalChild xmlSecNodeKeyInfo xmlSecDSigNs
          (skipOptionalChild xmlSecNodeEncryptionMethod xmlSecEncNs
            node.children)).1 }
    match childrenAtCipherData node with
    | [] => .error { kind := .invalidNode, node := some xmlSecNodeCipherData }
    | c :: rest =>
      if xmlSecCheckNodeName c xmlSecNodeCipherData xmlSecEncNs then
        match xmlSecEncCtxCipherDataNodeRead env ctx c with
        | .error e => .error e
        | .ok ctx2 =>
          let cur := skipOptionalChild xmlSecNodeEncryptionProperties
            xmlSecEncNs rest
          if ctx2.mode = EncCtxMode.encryptedKey then
            let p := findOptionalChild xmlSecNodeCarriedKeyName xmlSecEncNs
              (skipOptionalChild xmlSecNodeReferenceList xmlSecEncNs cur)
            let ctx3 :=
              match p.1 with
              | some c2 => { ctx2 with carriedKeyName := some c2.content }
              | none => ctx2
            if p.2.isEmpty then .ok ctx3
            else .error { kind := .unexpectedNode,
                          node := p.2.head?.map XmlNode.name }
          else
            if cur.isEmpty then .ok ctx2
            else .error { kind := .unexpectedNode,
                          node := cur.head?.map XmlNode.name }
      else .error { kind := .invalidNode, node := some xmlSecNodeCipherData }

/-- Apply an update to the encryption method both in the context field and
at its position in the chain: the C code mutates the shared transform
object, and at the point of these updates the encryption method is the
chain's last element. -/
def updEncMethod (ctx : EncCtx) (f : Transform → Transform) : EncCtx :=
  match ctx.encMethod with
  | some t =>
    { ctx with encMethod := some (f t), chain := ctx.chain.dropLast ++ [f t] }
  | none => ctx

/-- Second part of xmlSecEncCtxEncDataNodeRead (xmlenc.c, lines 625-658):
instantiate the encryption method from the EncryptionMethod node through
the registry, appending it to the chain; or append the caller-preset
method and mark dontDestroyEncMethod; or fail with INVALID_DATA when
neither exists.  Then set the method's encode flag from ctx.encrypt. -/
def encDataNodeReadMethod (env : EncEnv) (ctx : EncCtx) : Except Err EncCtx :=
  let step : Except Err EncCtx :=
    match ctx.encMethod, ctx.encMethodNode with
    | none, some n =>
      match env.nodeRead n with
      | some i =>
        let t : Transform := { klass := .cipher i }
        .ok { ctx with encMethod := some t, chain := ctx.chain ++ [t] }
      | none => .error { kind := .xmlsecFailed }
    | some m, _ =>
      .ok { ctx with chain := ctx.chain ++ [m], dontDestroyEncMethod := true }
    | none, none => .error { kind := .invalidData }
  match step with
  | .error e => .error e
  | .ok ctx => .ok (updEncMethod ctx (fun t => { t with encode := ctx.encrypt }))

/-- The key available for the requirement check: the preset key, or — when
none is preset, a KeyInfo node exists and the key manager provides a
getKey hook — the hook's result (xmlenc.c, lines 672-678). -/
def resolvedKey (env : EncEnv) (ctx : EncCtx) : Option Key :=
  match ctx.encKey, ctx.keyInfoNode, env.getKey with
  | none, some kn, some hook => hook kn
  | k, _, _ => k

/-- Third part of xmlSecEncCtxEncDataNodeRead (xmlenc.c, lines 660-702):
query the cipher's key requirements via setKeyReq, resolve the key, fail
with KEY_NOT_FOUND when no key is available or the key does not match
the requirements, and set the key on the cipher. -/
def encDataNodeReadKey (env : EncEnv) (ctx : EncCtx) : Except Err EncCtx :=
  match ctx.encMethod with
  | none => .error assertErr
  | some m =>
    match env.setKeyReq m with
    | none => .error { kind := .xmlsecFailed }
    | some req =>
      let ctx := { ctx with encKey := resolvedKey env ctx }
      match ctx.encKey with
      | none => .error { kind := .keyNotFound }
      | some k =>
        if env.keyMatch k req then
          if env.setKeyOk m k then
            .ok (updEncMethod ctx (fun t => { t with key := some k }))
          else .error { kind := .xmlsecFailed }
        else .error { kind := .keyNotFound }

/-- Final part of xmlSecEncCtxEncDataNodeRead (xmlenc.c, lines 704-720):
when encrypting into a CipherValue node, append a base64 encoder with
encode=1 to the chain and set resultBase64Encoded. -/
def encDataNodeReadBase64 (ctx : EncCtx) : EncCtx :=
  if ctx.encrypt && ctx.cipherValueNode.isSome then
    { ctx with chain := ctx.chain ++ [{ klass := .base64, encode := true }],
               resultBase64Encoded := true }
  else ctx

/-- xmlSecEncCtxEncDataNodeRead (xmlenc.c, lines 524-723), the composition
of its four parts. -/
def xmlSecEncCtxEncDataNodeRead (env : EncEnv) (ctx : EncCtx)
    (node : XmlNode) : Except Err EncCtx :=
  match encDataNodeReadStructure env ctx node with
  | .error e => .error e
  | .ok c1 =>
    match encDataNodeReadMethod env c1 with
    | .error e => .error e
    | .ok c2 =>
      match encDataNodeReadKey env c2 with
      | .error e => .error e
      | .ok c3 => .ok (encDataNodeReadBase64 c3)

/-- A mutation of caller-visible DOM state performed by the encryption
context: writing ciphertext into the CipherValue node, updating the
KeyInfo node, or splicing the host document. -/
inductive Mut where
  | setCipherValueContent (bytes : String)
  | keyInfoWrite
  | replaceNode
  | replaceContent
  | replaceNodeBuffer (bytes : String)
  deriving DecidableEq, Repr

/-- Outcome of a stateful top-level operation: the reported error (none on
success), the context as left by the operation, and the DOM mutations
performed, in order. -/
structure StepOut where
  err : Option Err
  ctx : EncCtx
  muts : List Mut

/-- xmlSecEncCtxCipherDataNodeWrite (xmlenc.c, lines 725-757): when a
CipherValue node is present, set its content to the encResult bytes and
set replaced (line 740); then, when a KeyInfo node is present, run the
key-info writer — which may fail after replaced has already been set. -/
def xmlSecEncCtxCipherDataNodeWrite (env : EncEnv) (ctx : EncCtx) : StepOut :=
  match ctx.encResult with
  | none => ⟨some assertErr, ctx, []⟩
  | some res =>
    if ctx.encKey.isNone then ⟨some assertErr, ctx, []⟩
    else
      let step :=
        match ctx.cipherValueNode with
        | some _ =>
          ({ ctx with replaced := true }, [Mut.setCipherValueContent res])
        | none => (ctx, ([] : List Mut))
      let ctx := step.1
      let muts := step.2
      match ctx.keyInfoNode with
      | some _ =>
        if env.keyInfoWriteOk then ⟨none, ctx, muts ++ [Mut.keyInfoWrite]⟩
        else ⟨some { kind := .xmlsecFailed }, ctx, muts⟩
      | none => ⟨none, ctx, muts⟩

/-- xmlSecEncCtxBinaryEncrypt (xmlenc.c, lines 164-213): set encrypt mode,
read the template, run the chain on the data bytes, store encResult, and
write the cipher data.  On a failure inside encDataNodeRead the returned
context is the one at entry to that call. -/
def xmlSecEncCtxBinaryEncrypt (env : EncEnv) (ctx0 : EncCtx) (tmpl : XmlNode)
    (data : String) : StepOut :=
  if ctx0.encResult.isSome then ⟨some assertErr, ctx0, []⟩
  else
    let ctx := { ctx0 with encrypt := true }
    match xmlSecEncCtxEncDataNodeRead env ctx tmpl with
    | .error e => ⟨some e, ctx, []⟩
    | .ok ctx =>
      match env.binExec ctx.chain data with
      | none => ⟨some { kind := .xmlsecFailed }, ctx, []⟩
      | some res =>
        xmlSecEncCtxCipherDataNodeWrite env { ctx with encResult := some res }

/-- xmlSecEncCtxXmlEncrypt (xmlenc.c, lines 216-338): after reading the
template, prepare the chain, serialize the target node (Type Element) or
its children (Type Content) into the chain through an output buffer,
write the cipher data — which already sets replaced when a CipherValue is
present — and only then replace the target node or its content in the
host document, setting replaced again after the splice. -/
def xmlSecEncCtxXmlEncrypt (env : EncEnv) (ctx0 : EncCtx)
    (tmpl node : XmlNode) : StepOut :=
  if ctx0.encResult.isSome then ⟨some assertErr, ctx0, []⟩
  else
    let ctx := { ctx0 with encrypt := true }
    match xmlSecEncCtxEncDataNodeRead env ctx tmpl with
    | .error e => ⟨some e, ctx, []⟩
    | .ok ctx =>
      if ¬ env.prepareOk then ⟨some { kind := .xmlsecFailed }, ctx, []⟩
      else
        let dumped : Option String :=
          if ctx.type = some xmlSecTypeEncElement then some (env.dumpNode node)
          else if ctx.type = some xmlSecTypeEncContent then
            some (String.join (node.children.map env.dumpNode))
          else none
        match dumped with
        | none => ⟨some { kind := .invalidType }, ctx, []⟩
        | some data =>
          match env.binExec ctx.chain data with
          | none => ⟨some assertErr, ctx, []⟩
          | some res =>
            let w := xmlSecEncCtxCipherDataNodeWrite env
              { ctx with encResult := some res }
            match w.err with
            | some e => ⟨some e, w.ctx, w.muts⟩
            | none =>
              let ctx := w.ctx
              if ctx.type = some xmlSecTypeEncElement then
                if env.replaceNodeOk then
                  ⟨none, { ctx with replaced := true }, w.muts ++ [Mut.replaceNode]⟩
                else ⟨some { kind := .xmlsecFailed }, ctx, w.muts⟩
              else if ctx.type = some xmlSecTypeEncContent then
                if env.replaceContentOk then
                  ⟨none, { ctx with replaced := true }, w.muts ++ [Mut.replaceContent]⟩
                else ⟨some { kind := .xmlsecFailed }, ctx, w.muts⟩
              else ⟨some { kind := .invalidType }, ctx, w.muts⟩

/-- xmlSecEncCtxUriEncrypt (xmlenc.c, lines 340-401): install the input
URI on the chain, read the template, execute the chain over the document
and write the cipher data. -/
def xmlSecEncCtxUriEncrypt (env : EncEnv) (ctx0 : EncCtx) (tmpl : XmlNode)
    (u : String) : StepOut :=
  if ctx0.encResult.isSome then ⟨some assertErr, ctx0, []⟩
  else
    let ctx := { ctx0 with encrypt := true }
    if ¬ env.setUriOk u then ⟨some { kind := .xmlsecFailed }, ctx, []⟩
    else
      let ctx := { ctx with uri := some u }
      match xmlSecEncCtxEncDataNodeRead env ctx tmpl with
      | .error e => ⟨some e, ctx, []⟩
      | .ok ctx =>
        match env.docExec ctx.chain ctx.uri with
        | none => ⟨some { kind := .xmlsecFailed }, ctx, []⟩
        | some res =>
          xmlSecEncCtxCipherDataNodeWrite env { ctx with encResult := some res }

/-- xmlSecEncCtxDecryptToBuffer (xmlenc.c, lines 452-522): set decrypt
mode, read the EncryptedData node, and run the chain either on the
CipherValue node's content (binaryExecute) or over the document through
the CipherReference-installed source (execute); returns the result
buffer and the updated context. -/
def xmlSecEncCtxDecryptToBuffer (env : EncEnv) (ctx0 : EncCtx)
    (node : XmlNode) : Except Err (String × EncCtx) :=
  if ctx0.encResult.isSome then .error assertErr
  else
    let ctx := { ctx0 with encrypt := false }
    match xmlSecEncCtxEncDataNodeRead env ctx node with
    | .error e => .error e
    | .ok ctx =>
      match ctx.cipherValueNode with
      | some cvn =>
        match env.binExec ctx.chain cvn.content with
        | none => .error { kind := .xmlsecFailed }
        | some res => .ok (res, { ctx with encResult := some res })
      | none =>
        match env.docExec ctx.chain ctx.uri with
        | none => .error { kind := .xmlsecFailed }
        | some res => .ok (res, { ctx with encResult := some res })

/-- xmlSecEncCtxDecrypt (xmlenc.c, lines 403-450): decrypt to a buffer,
then — only when the Type attribute equals the Element or the Content
type URI — replace the node with the buffer contents and set replaced;
any other or absent Type leaves the document untouched and the result
available only through encResult. -/
def xmlSecEncCtxDecrypt (env : EncEnv) (ctx0 : EncCtx) (node : XmlNode) :
    StepOut :=
  match xmlSecEncCtxDecryptToBuffer env ctx0 node with
  | .error e => ⟨some e, ctx0, []⟩
  | .ok (buf, ctx) =>
    if ctx.type = some xmlSecTypeEncElement then
      if env.replaceNodeBufferOk then
        ⟨none, { ctx with replaced := true }, [Mut.replaceNodeBuffer buf]⟩
      else ⟨some { kind := .xmlsecFailed }, ctx, []⟩
    else if ctx.type = some xmlSecTypeEncContent then
      if env.replaceNodeBufferOk then
        ⟨none, { ctx with replaced := true }, [Mut.replaceNodeBuffer buf]⟩
      else ⟨some { kind := .xmlsecFailed }, ctx, []⟩
    else ⟨none, ctx, []⟩

/-- The resources released by xmlSecEncCtxFinalize: whether the
instantiated encryption-method transform is destroyed, whether the key is
destroyed, and which owned string attributes are freed; the transform
context and the two key-info contexts are always finalized. -/
structure FinalizeEffects where
  encMethodDestroyed : Bool
  keyDestroyed : Bool
  idFreed : Bool
  typeFreed : Bool
  mimeTypeFreed : Bool
  encodingFreed : Bool
  recipientFreed : Bool
  carriedKeyNameFreed : Bool
  deriving DecidableEq, Repr

/-- xmlSecEncCtxFinalize (xmlenc.c, lines 128-162): the released resources
and the context zeroed by the closing memset.  The encryption method is
destroyed when dontDestroyEncMethod is non-zero and encMethod is non-null
(the condition at line 136, transcribed as the code has it). -/
def xmlSecEncCtxFinalize (ctx : EncCtx) : FinalizeEffects × EncCtx :=
  (⟨ctx.dontDestroyEncMethod && ctx.encMethod.isSome,
    ctx.encKey.isSome, ctx.id.isSome, ctx.type.isSome, ctx.mimeType.isSome,
    ctx.encoding.isSome, ctx.recipient.isSome, ctx.carriedKeyName.isSome⟩,
   {})

/-- The first two parts of xmlSecEncCtxEncDataNodeRead: the structure
parse followed by the encryption-method setup, before the key lookup. -/
def encDataNodeReadPre (env : EncEnv) (ctx : EncCtx) (node : XmlNode) :
    Except Err EncCtx :=
  match encDataNodeReadStructure env ctx node with
  | .error e => .error e
  | .ok c1 => encDataNodeReadMethod env c1

/-- The context component of a successful DecryptToBuffer result (the
zeroed context otherwise); used to state concrete instantiations. -/
def decToBufferCtx (env : EncEnv) (ctx0 : EncCtx) (node : XmlNode) : EncCtx :=
  match xmlSecEncCtxDecryptToBuffer env ctx0 node with
  | .ok p => p.2
  | .error _ => {}

/-- The context produced by a successful encDataNodeReadPre (the zeroed
context otherwise); used to state concrete instantiations. -/
def encReadPreCtx (env : EncEnv) (ctx : EncCtx) (node : XmlNode) : EncCtx :=
  match encDataNodeReadPre env ctx node with
  | .ok c => c
  | .error _ => {}

/-- The context produced by a successful encDataNodeRead (the zeroed
context otherwise); used to state concrete instantiations. -/
def encReadCtx (env : EncEnv) (ctx : EncCtx) (node : XmlNode) : EncCtx :=
  match xmlSecEncCtxEncDataNodeRead env ctx node with
  | .ok c => c
  | .error _ => {}

/-- A concrete CipherValue node with base64 text content. -/
def cvNode : XmlNode := .mk xmlSecNodeCipherValue xmlSecEncNs [] [] "QUJD"

/-- A concrete CipherData node holding a CipherValue child. -/
def cdNodeCV : XmlNode := .mk xmlSecNodeCipherData xmlSecEncNs [] [cvNode] ""

/-- A concrete CipherData node with no element children at all. -/
def cdNodeEmpty : XmlNode := .mk xmlSecNodeCipherData xmlSecEncNs [] [] ""

/-- A concrete EncryptionMethod node. -/
def emNode : XmlNode := .mk xmlSecNodeEncryptionMethod xmlSecEncNs [] [] ""

/-- A concrete dsig KeyInfo node. -/
def kiNode : XmlNode := .mk xmlSecNodeKeyInfo xmlSecDSigNs [] [] ""

/-- EncryptedData template with Type=Element, an EncryptionMethod child
and a CipherData child holding a CipherValue. -/
def tmplCV : XmlNode :=
  .mk "EncryptedData" xmlSecEncNs [(xmlSecAttrType, xmlSecTypeEncElement)]
    [emNode, cdNodeCV] ""

/-- EncryptedData template (no Type attribute) whose CipherData child has
no element children. -/
def tmplEmptyCD : XmlNode :=
  .mk "EncryptedData" xmlSecEncNs [] [emNode, cdNodeEmpty] ""

/-- EncryptedData template with no CipherData child. -/
def tmplNoCD : XmlNode := .mk "EncryptedData" xmlSecEncNs [] [emNode] ""

/-- EncryptedData template (no Type attribute) with EncryptionMethod,
KeyInfo and CipherData/CipherValue children. -/
def tmplKI : XmlNode :=
  .mk "EncryptedData" xmlSecEncNs [] [emNode, kiNode, cdNodeCV] ""

/-- A fully cooperative collaborator environment: registry, key manager,
DOM helpers and chain execution all succeed. -/
def envW : EncEnv where
  nodeRead := fun _ => some 1
  listRead := fun _ => some []
  setUriOk := fun _ => true
  setKeyReq := fun _ => some { reqId := 0 }
  keyMatch := fun _ _ => true
  setKeyOk := fun _ _ => true
  binExec := fun _ _ => some "CT"
  docExec := fun _ _ => some "PT"
  prepareOk := true
  dumpNode := fun _ => "x"
  replaceNodeOk := true
  replaceContentOk := true
  replaceNodeBufferOk := true
  keyInfoWriteOk := true
  getKey := some (fun _ => some { keyId := 7 })

/-- A context with a caller-preset key. -/
def ctxW : EncCtx := { encKey := some { keyId := 7 } }

theorem xsltExecute_accumulate (proc : List Nat → Option (List Nat))
    (t : XsltTransform) (h1 : t.xslt.isSome = true) (h2 : t.outBuf = [])
    (h3 : t.status = TStatus.statusNone ∨ t.status = TStatus.working) :
    xmlSecXsltExecute proc t false = .ok { t with status := .working } := by
  obtain ⟨s, hs⟩ := Option.isSome_iff_exists.mp h1
  rcases h3 with h3 | h3
  · simp [xmlSecXsltExecute, hs, h2, h3]
  · have ht : ({ t with status := TStatus.working } : XsltTransform) = t := by
      cases t; simp_all
    rw [ht]
    simp [xmlSecXsltExecute, hs, h2, h3]

theorem xsltFeedRun_ok (proc : List Nat → Option (List Nat))
    (cs : List (List Nat)) :
    ∀ t : XsltTransform, t.xslt.isSome = true → t.outBuf = [] →
      (t.status = TStatus.statusNone ∨ t.status = TStatus.working) →
      ∃ t', xsltFeedRun proc t cs = .ok t' ∧
        t'.inBuf = t.inBuf ++ cs.flatten ∧ t'.outBuf = [] ∧
        t'.xslt = t.xslt ∧
        (t'.status = TStatus.statusNone ∨ t'.status = TStatus.working) := by
  induction cs with
  | nil =>
    intro t h1 h2 h3
    exact ⟨t, rfl, by simp, h2, rfl, h3⟩
  | cons c cs ih =>
    intro t h1 h2 h3
    have hexec := xsltExecute_accumulate proc { t with inBuf := t.inBuf ++ c }
      h1 h2 h3
    obtain ⟨t', hrun, hin, hout, hx, hst⟩ :=
      ih { t with inBuf := t.inBuf ++ c, status := .working } h1 h2 (Or.inr rfl)
    refine ⟨t', ?_, ?_, hout, hx, hst⟩
    · rw [xsltFeedRun, hexec]
      exact hrun
    · rw [hin]; simp

/-- C6: on a freshly-initialized XSLT transform, any number of
execute(last=0) calls (each buffering its pushed input and producing no
output) followed by one execute(last=1) call succeeds, provided the
stylesheet application succeeds on the accumulated input, and leaves the
transform in status Finished with inBuf empty (all buffered input removed
from the head) and outBuf holding the stage's complete output for the
run. -/
theorem xslt_fresh_run_finishes (proc : List Nat → Option (List Nat)) (s : Nat)
    (chunks : List (List Nat)) (lastC out : List Nat)
    (hproc : proc (chunks.flatten ++ lastC) = some out) :
    xsltFullRun proc
        { status := .statusNone, inBuf := [], outBuf := [], xslt := some s }
        chunks lastC =
      .ok { status := .finished, inBuf := [], outBuf := out, xslt := some s } := by
  obtain ⟨t', hrun, hin, hout, hx, hst⟩ :=
    xsltFeedRun_ok proc chunks
      { status := .statusNone, inBuf := [], outBuf := [], xslt := some s }
      rfl rfl (Or.inl rfl)
  unfold xsltFullRun
  rw [hrun]
  obtain ⟨st, ib, ob, xs⟩ := t'
  simp only at hin hout hx
  subst hin hout hx
  simp only [List.nil_append] at hproc ⊢
  rcases hst with hst | hst <;> subst hst <;>
    simp [xmlSecXsltExecute, hproc, List.drop_length]

/-- Witness for C6 at a concrete run: two buffered chunks then a final
chunk, with a concrete stylesheet application. -/
theorem xslt_fresh_run_finishes_witness :
    xsltFullRun (fun _ => some [9])
        { status := .statusNone, inBuf := [], outBuf := [], xslt := some 2 }
        [[1], [2]] [3] =
      .ok { status := .finished, inBuf := [], outBuf := [9], xslt := some 2 } :=
  xslt_fresh_run_finishes (fun _ => some [9]) 2 [[1], [2]] [3] [9] rfl

/-- C7 counterexample: calling execute on a Finished transform whose inBuf
is non-empty fails through the precondition check that inBuf is empty
(reported as a precondition/assertion failure), not with error kind
INVALID_STATUS; the INVALID_STATUS report at part_000 line 276 is not
reached in this state. -/
theorem xslt_execute_finished_nonempty_not_invalidStatus :
    xmlSecXsltExecute (fun _ => none)
        { status := .finished, inBuf := [0], outBuf := [], xslt := some 0 }
        true =
      .error assertErr ∧ assertErr.kind ≠ ErrKind.invalidStatus :=
  ⟨rfl, by decide⟩

/-- C7 amended: calling execute (with either value of last) on a transform
whose status is Finished while its inBuf is non-empty fails, via the
assertion that inBuf is empty; the INVALID_STATUS error is reported only
for a status outside None/Working/Finished. -/
theorem xslt_execute_finished_nonempty_fails
    (proc : List Nat → Option (List Nat)) (t : XsltTransform) (last : Bool)
    (h1 : t.xslt.isSome = true) (h2 : t.status = TStatus.finished)
    (h3 : t.inBuf ≠ []) :
    xmlSecXsltExecute proc t last = .error assertErr := by
  obtain ⟨s, hs⟩ := Option.isSome_iff_exists.mp h1
  have hlen : t.inBuf.length ≠ 0 := by
    simpa [List.length_eq_zero] using h3
  cases last <;> simp [xmlSecXsltExecute, hs, h2, hlen]

/-- Witness for C7's amended theorem at a concrete Finished transform with
one pending input byte. -/
theorem xslt_execute_finished_nonempty_fails_witness :
    xmlSecXsltExecute (fun _ => some [])
        { status := .finished, inBuf := [5], outBuf := [], xslt := some 1 }
        false =
      .error assertErr :=
  xslt_execute_finished_nonempty_fails (fun _ => some [])
    { status := .finished, inBuf := [5], outBuf := [], xslt := some 1 }
    false rfl rfl (by decide)

/-- C8 counterexample: when parsing the serialized stylesheet bytes fails,
xmlSecXsltReadNode reports error kind XMLSEC_FAILED (part_000 line 192),
not XML_FAILED; XML_FAILED is reported only for the buffer-creation
failure at line 175. -/
theorem xslt_readNode_parse_failure_kind :
    xmlSecXsltReadNode true (fun _ => none) (fun d => some d)
        { status := .statusNone, inBuf := [], outBuf := [], xslt := none }
        [1, 2] =
      .error { kind := .xmlsecFailed } ∧
      ErrKind.xmlsecFailed ≠ ErrKind.xmlFailed :=
  ⟨rfl, by decide⟩

/-- C8 amended: in xmlSecXsltReadNode, a failure to parse the serialized
stylesheet bytes as an XML document is reported with error kind
XMLSEC_FAILED, and a failure to compile the parsed document into a
stylesheet is reported with error kind XSLT_FAILED. -/
theorem xslt_readNode_error_kinds (parse : List Nat → Option Nat)
    (compile : Nat → Option Nat) (t : XsltTransform) (serialized : List Nat)
    (hx : t.xslt = none) :
    (parse serialized = none →
      xmlSecXsltReadNode true parse compile t serialized =
        .error { kind := .xmlsecFailed }) ∧
    (∀ d, parse serialized = some d → compile d = none →
      xmlSecXsltReadNode true parse compile t serialized =
        .error { kind := .xsltFailed }) := by
  constructor
  · intro hp
    simp [xmlSecXsltReadNode, hx, hp]
  · intro d hp hc
    simp [xmlSecXsltReadNode, hx, hp, hc]

/-- Witness for C8's amended theorem: a concrete failing parse and a
concrete failing compile. -/
theorem xslt_readNode_error_kinds_witness :
    xmlSecXsltReadNode true (fun _ => none) (fun d => some d)
        { status := .statusNone, inBuf := [], outBuf := [], xslt := none }
        [3] =
      .error { kind := .xmlsecFailed } ∧
    xmlSecXsltReadNode true (fun _ => some 7) (fun _ => none)
        { status := .statusNone, inBuf := [], outBuf := [], xslt := none }
        [3] =
      .error { kind := .xsltFailed } :=
  ⟨(xslt_readNode_error_kinds (fun _ => none) (fun d => some d) _ [3] rfl).1 rfl,
   (xslt_readNode_error_kinds (fun _ => some 7) (fun _ => none) _ [3] rfl).2 7 rfl rfl⟩


theorem cipherRefRead_shape (env : EncEnv) (ctx : EncCtx) (node : XmlNode)
    (c' : EncCtx) (h : xmlSecEncCtxCipherReferenceNodeRead env ctx node = .ok c') :
    c'.cipherValueNode = ctx.cipherValueNode ∧ c'.encrypt = ctx.encrypt ∧
    c'.mode = ctx.mode ∧ c'.encMethod = ctx.encMethod ∧
    c'.encKey = ctx.encKey ∧ c'.keyInfoNode = ctx.keyInfoNode ∧
    c'.encMethodNode = ctx.encMethodNode ∧ c'.type = ctx.type ∧
    c'.replaced = ctx.replaced ∧ c'.encResult = ctx.encResult ∧
    c'.resultBase64Encoded = ctx.resultBase64Encoded := by
  unfold xmlSecEncCtxCipherReferenceNodeRead at h
  repeat any_goals (first | split at h | simp only [] at h)
  all_goals try (simp only [Except.ok.injEq] at h)
  all_goals try subst h
  all_goals simp_all

theorem cipherDataRead_shape (env : EncEnv) (ctx : EncCtx) (node : XmlNode)
    (c' : EncCtx) (h : xmlSecEncCtxCipherDataNodeRead env ctx node = .ok c') :
    c'.encrypt = ctx.encrypt ∧ c'.mode = ctx.mode ∧
    c'.encMethod = ctx.encMethod ∧ c'.encKey = ctx.encKey ∧
    c'.keyInfoNode = ctx.keyInfoNode ∧ c'.encMethodNode = ctx.encMethodNode ∧
    c'.type = ctx.type ∧ c'.replaced = ctx.replaced ∧
    c'.encResult = ctx.encResult ∧
    c'.resultBase64Encoded = ctx.resultBase64Encoded ∧
    (c'.uri = ctx.uri ∨ c'.cipherValueNode = ctx.cipherValueNode) ∧
    (ctx.encrypt = true → c'.chain = ctx.chain ∧ c'.uri = ctx.uri) := by
  unfold xmlSecEncCtxCipherDataNodeRead at h
  repeat any_goals (first | split at h | simp only [] at h)
  all_goals try (simp only [Except.ok.injEq] at h)
  all_goals try subst h
  all_goals try simp_all
  all_goals (have hs := cipherRefRead_shape env ctx _ _ (by assumption); simp_all)

set_option maxHeartbeats 1000000 in
theorem readStructure_shape (env : EncEnv) (ctx : EncCtx) (node : XmlNode)
    (c' : EncCtx) (h : encDataNodeReadStructure env ctx node = .ok c') :
    c'.encrypt = ctx.encrypt ∧ c'.mode = ctx.mode ∧
    c'.encMethod = ctx.encMethod ∧ c'.encKey = ctx.encKey ∧
    c'.replaced = ctx.replaced ∧ c'.encResult = ctx.encResult ∧
    c'.resultBase64Encoded = ctx.resultBase64Encoded ∧
    (c'.uri = ctx.uri ∨ c'.cipherValueNode = ctx.cipherValueNode) ∧
    (ctx.encrypt = true → c'.chain = ctx.chain ∧ c'.uri = ctx.uri) := by
  unfold encDataNodeReadStructure at h
  repeat any_goals (first | split at h | simp only [] at h)
  all_goals try (simp only [Except.ok.injEq] at h)
  all_goals try subst h
  all_goals try simp_all
  all_goals (have hs := cipherDataRead_shape env _ _ _ (by assumption); simp_all)

theorem method_shape (env : EncEnv) (ctx : EncCtx) (c' : EncCtx)
    (h : encDataNodeReadMethod env ctx = .ok c') :
    (∃ m, c'.encMethod = some m ∧ c'.chain = ctx.chain ++ [m]) ∧
    c'.cipherValueNode = ctx.cipherValueNode ∧ c'.uri = ctx.uri ∧
    c'.encrypt = ctx.encrypt ∧ c'.mode = ctx.mode ∧
    c'.encKey = ctx.encKey ∧ c'.keyInfoNode = ctx.keyInfoNode ∧
    c'.type = ctx.type ∧ c'.replaced = ctx.replaced ∧
    c'.encResult = ctx.encResult ∧
    c'.resultBase64Encoded = ctx.resultBase64Encoded := by
  unfold encDataNodeReadMethod updEncMethod at h
  repeat any_goals (first | split at h | simp only [] at h)
  all_goals try (simp only [Except.ok.injEq] at h)
  all_goals try subst h
  all_goals simp_all [List.dropLast_concat]

theorem key_shape (env : EncEnv) (ctx : EncCtx) (c' : EncCtx) (m : Transform)
    (pre : List Transform) (hm : ctx.encMethod = some m)
    (hc : ctx.chain = pre ++ [m]) (h : encDataNodeReadKey env ctx = .ok c') :
    (∃ k, c'.encKey = some k ∧ c'.encMethod = some { m with key := some k } ∧
      c'.chain = pre ++ [{ m with key := some k }]) ∧
    c'.cipherValueNode = ctx.cipherValueNode ∧ c'.uri = ctx.uri ∧
    c'.encrypt = ctx.encrypt ∧ c'.mode = ctx.mode ∧
    c'.keyInfoNode = ctx.keyInfoNode ∧ c'.type = ctx.type ∧
    c'.replaced = ctx.replaced ∧ c'.encResult = ctx.encResult ∧
    c'.resultBase64Encoded = ctx.resultBase64Encoded := by
  unfold encDataNodeReadKey updEncMethod at h
  rw [hm] at h
  repeat any_goals (first | split at h | simp only [] at h)
  all_goals try (simp only [Except.ok.injEq] at h)
  all_goals try subst h
  all_goals simp_all [List.dropLast_concat, hc]

theorem base64Stage_shape (ctx : EncCtx) :
    (encDataNodeReadBase64 ctx).cipherValueNode = ctx.cipherValueNode ∧
    (encDataNodeReadBase64 ctx).uri = ctx.uri ∧
    (encDataNodeReadBase64 ctx).encrypt = ctx.encrypt ∧
    (encDataNodeReadBase64 ctx).mode = ctx.mode ∧
    (encDataNodeReadBase64 ctx).encKey = ctx.encKey ∧
    (encDataNodeReadBase64 ctx).encMethod = ctx.encMethod ∧
    (encDataNodeReadBase64 ctx).type = ctx.type ∧
    (encDataNodeReadBase64 ctx).replaced = ctx.replaced ∧
    (encDataNodeReadBase64 ctx).encResult = ctx.encResult := by
  unfold encDataNodeReadBase64
  repeat any_goals split
  all_goals simp_all


theorem encRead_shape (env : EncEnv) (ctx : EncCtx) (node : XmlNode)
    (c' : EncCtx) (h : xmlSecEncCtxEncDataNodeRead env ctx node = .ok c') :
    c'.replaced = ctx.replaced ∧ c'.encResult = ctx.encResult ∧
    c'.encrypt = ctx.encrypt ∧ c'.mode = ctx.mode ∧
    (c'.uri = ctx.uri ∨ c'.cipherValueNode = ctx.cipherValueNode) := by
  unfold xmlSecEncCtxEncDataNodeRead at h
  cases h1 : encDataNodeReadStructure env ctx node with
  | error e => rw [h1] at h; exact absurd h (by simp)
  | ok c1 =>
    rw [h1] at h
    simp only [] at h
    cases h2 : encDataNodeReadMethod env c1 with
    | error e => rw [h2] at h; exact absurd h (by simp)
    | ok c2 =>
      rw [h2] at h
      simp only [] at h
      cases h3 : encDataNodeReadKey env c2 with
      | error e => rw [h3] at h; exact absurd h (by simp)
      | ok c3 =>
        rw [h3] at h
        simp only [Except.ok.injEq] at h
        subst h
        obtain ⟨he1, hmo1, hem1, hk1, hr1, hres1, hrb1, hor1, henc1⟩ :=
          readStructure_shape env ctx node c1 h1
        obtain ⟨⟨m2, hm2a, hm2b⟩, hcv2, hu2, he2, hmo2, hk2, hki2, ht2, hr2,
          hres2, hrb2⟩ := method_shape env c1 c2 h2
        obtain ⟨⟨k3, hk3a, hk3b, hk3c⟩, hcv3, hu3, he3, hmo3, hki3, ht3, hr3,
          hres3, hrb3⟩ := key_shape env c2 c3 m2 c1.chain hm2a hm2b h3
        obtain ⟨hv4, hu4, he4, hmo4, hk4, hem4, ht4, hr4, hres4⟩ :=
          base64Stage_shape c3
        refine ⟨?_, ?_, ?_, ?_, ?_⟩
        · rw [hr4, hr3, hr2, hr1]
        · rw [hres4, hres3, hres2, hres1]
        · rw [he4, he3, he2, he1]
        · rw [hmo4, hmo3, hmo2, hmo1]
        · rw [hu4, hu3, hu2, hv4, hcv3, hcv2]
          exact hor1

theorem decToBuffer_frame (env : EncEnv) (ctx0 : EncCtx) (node : XmlNode)
    (buf : String) (c' : EncCtx)
    (h : xmlSecEncCtxDecryptToBuffer env ctx0 node = .ok (buf, c')) :
    c'.replaced = ctx0.replaced ∧ c'.encResult = some buf ∧
    (c'.uri = ctx0.uri ∨ c'.cipherValueNode = ctx0.cipherValueNode) := by
  unfold xmlSecEncCtxDecryptToBuffer at h
  split at h
  · exact absurd h (by simp)
  · simp only [] at h
    cases hr : xmlSecEncCtxEncDataNodeRead env { ctx0 with encrypt := false }
        node with
    | error e => rw [hr] at h; exact absurd h (by simp)
    | ok cr =>
      rw [hr] at h
      simp only [] at h
      have hs := encRead_shape env _ node cr hr
      repeat any_goals (first | split at h | simp only [] at h)
      all_goals try (simp only [Except.ok.injEq, Prod.mk.injEq] at h)
      all_goals try (obtain ⟨hb, hc⟩ := h; subst hb; subst hc)
      all_goals simp_all

/-- C1: xmlSecEncCtxFinalize evaluated at both ownership states of the
encryption method.  The condition at xmlenc.c line 136 destroys the
method exactly when dontDestroyEncMethod is set: a caller-supplied
method (for which dontDestroyEncMethod is set at line 648) is destroyed,
while a context-owned one (flag clear) is never destroyed — the inverse
of the flag's documented meaning and of the claimed release behaviour. -/
theorem finalize_encMethod_destruction_inverted :
    (xmlSecEncCtxFinalize { ctxW with
        encMethod := some { klass := .cipher 1 },
        dontDestroyEncMethod := true }).1.encMethodDestroyed = true ∧
    (xmlSecEncCtxFinalize { ctxW with
        encMethod := some { klass := .cipher 1 },
        dontDestroyEncMethod := false }).1.encMethodDestroyed = false :=
  ⟨rfl, rfl⟩

/-- C2 counterexample: a concrete XmlEncrypt run in which the template
read, the chain execution and the CipherValue write all succeed and then
the host-document node replacement fails.  The operation fails, yet the
replaced flag is already true — set by xmlSecEncCtxCipherDataNodeWrite
(xmlenc.c line 740) before the splice — and the ciphertext has already
been written into the template's CipherValue node. -/
theorem xmlEncrypt_failing_splice_replaced_true :
    ((xmlSecEncCtxXmlEncrypt { envW with replaceNodeOk := false } ctxW tmplCV
        tmplNoCD).err.isSome,
     (xmlSecEncCtxXmlEncrypt { envW with replaceNodeOk := false } ctxW tmplCV
        tmplNoCD).ctx.replaced,
     (xmlSecEncCtxXmlEncrypt { envW with replaceNodeOk := false } ctxW tmplCV
        tmplNoCD).muts) =
    (true, true, [Mut.setCipherValueContent "CT"]) := rfl

/-- C2 amended: on the Decrypt path the property holds — a failing
Decrypt performs no DOM mutation and leaves replaced false when the
context starts with replaced clear; on the encrypt paths, however,
cipherDataNodeWrite sets replaced as soon as the ciphertext is written
into a present CipherValue node, before the host-document splice, so a
later splice failure leaves a failed operation with replaced already
true. -/
theorem replaced_flag_discipline (env : EncEnv) (ctx0 : EncCtx)
    (node : XmlNode) (h0 : ctx0.replaced = false) :
    ((xmlSecEncCtxDecrypt env ctx0 node).err.isSome = true →
      (xmlSecEncCtxDecrypt env ctx0 node).ctx.replaced = false ∧
      (xmlSecEncCtxDecrypt env ctx0 node).muts = []) ∧
    (∀ ctx : EncCtx, ctx.encResult.isSome = true → ctx.encKey.isSome = true →
      ctx.cipherValueNode.isSome = true →
      (xmlSecEncCtxCipherDataNodeWrite env ctx).ctx.replaced = true) := by
  constructor
  · unfold xmlSecEncCtxDecrypt
    cases hd : xmlSecEncCtxDecryptToBuffer env ctx0 node with
    | error e => intro _; exact ⟨h0, rfl⟩
    | ok p =>
      obtain ⟨buf, ctx1⟩ := p
      have hf := decToBuffer_frame env ctx0 node buf ctx1 hd
      simp only []
      repeat any_goals split
      all_goals intro herr
      all_goals simp_all
  · intro ctx hres hkey hcv
    unfold xmlSecEncCtxCipherDataNodeWrite
    repeat any_goals (first | split | simp only [])
    all_goals simp_all

/-- Witness for C2's amended theorem: a concrete failing Decrypt (the
node-buffer replacement refused) leaves replaced false with no DOM
mutation, and a concrete cipherDataNodeWrite with a CipherValue node
present sets replaced. -/
theorem replaced_flag_discipline_witness :
    ((xmlSecEncCtxDecrypt { envW with replaceNodeBufferOk := false } ctxW
        tmplCV).ctx.replaced = false ∧
      (xmlSecEncCtxDecrypt { envW with replaceNodeBufferOk := false } ctxW
        tmplCV).muts = []) ∧
    (xmlSecEncCtxCipherDataNodeWrite envW { ctxW with
        encResult := some "CT",
        cipherValueNode := some cvNode }).ctx.replaced = true :=
  ⟨(replaced_flag_discipline { envW with replaceNodeBufferOk := false } ctxW
      tmplCV rfl).1 rfl,
   (replaced_flag_discipline envW ctxW tmplCV rfl).2
     { ctxW with encResult := some "CT", cipherValueNode := some cvNode }
     rfl rfl rfl⟩

/-- C3 counterexample: a Decrypt-side run on an EncryptedData whose
CipherData node has no element children succeeds end-to-end — the chain
is executed and produces a result — while neither cipherValueNode is set
nor any CipherReference-configured source has been installed, refuting
the "never neither" half of the claimed invariant. -/
theorem decToBuffer_empty_cipherdata_neither_source :
    ((xmlSecEncCtxDecryptToBuffer envW ctxW tmplEmptyCD).toOption.map
      (fun p => (p.2.cipherValueNode.isSome, p.2.uri.isSome, p.1))) =
      some (false, false, "PT") := rfl

/-- C3 amended: on the decrypt path, at the moment the chain is executed
at most one of the two cipher sources is configured — cipherValueNode and
a CipherReference-installed URI source are never both set (for a context
that starts with both clear); the "never neither" half of the original
claim does not hold (an empty CipherData reaches execution with neither
set). -/
theorem decToBuffer_source_at_most_one (env : EncEnv) (ctx0 : EncCtx)
    (node : XmlNode) (buf : String) (c' : EncCtx)
    (huri : ctx0.uri = none) (hcv : ctx0.cipherValueNode = none)
    (h : xmlSecEncCtxDecryptToBuffer env ctx0 node = .ok (buf, c')) :
    ¬(c'.cipherValueNode.isSome = true ∧ c'.uri.isSome = true) := by
  obtain ⟨-, -, hor⟩ := decToBuffer_frame env ctx0 node buf c' h
  rintro ⟨h1, h2⟩
  rcases hor with ho | ho <;> simp_all

/-- Witness for C3's amended theorem at a concrete successful decrypt of
a CipherValue template. -/
theorem decToBuffer_source_at_most_one_witness :
    ¬((decToBufferCtx envW ctxW tmplKI).cipherValueNode.isSome = true ∧
      (decToBufferCtx envW ctxW tmplKI).uri.isSome = true) :=
  decToBuffer_source_at_most_one envW ctxW tmplKI "CT"
    (decToBufferCtx envW ctxW tmplKI) rfl rfl rfl

/-- C10: when Decrypt runs on a node whose Type attribute is absent or
names neither the Element nor the Content type URI, and DecryptToBuffer
succeeds, Decrypt succeeds while performing no DOM mutation: no node
replacement happens, replaced stays false (for a context starting with
replaced clear), and the plaintext is available only through encResult. -/
theorem decrypt_other_type_frame (env : EncEnv) (ctx0 : EncCtx)
    (node : XmlNode) (buf : String) (c' : EncCtx) (h0 : ctx0.replaced = false)
    (h : xmlSecEncCtxDecryptToBuffer env ctx0 node = .ok (buf, c'))
    (htype : c'.type = none ∨ (c'.type ≠ some xmlSecTypeEncElement ∧
      c'.type ≠ some xmlSecTypeEncContent)) :
    (xmlSecEncCtxDecrypt env ctx0 node).err = none ∧
    (xmlSecEncCtxDecrypt env ctx0 node).muts = [] ∧
    (xmlSecEncCtxDecrypt env ctx0 node).ctx.replaced = false ∧
    (xmlSecEncCtxDecrypt env ctx0 node).ctx.encResult = some buf := by
  have hf := decToBuffer_frame env ctx0 node buf c' h
  have hne : c'.type ≠ some xmlSecTypeEncElement ∧
      c'.type ≠ some xmlSecTypeEncContent := by
    rcases htype with ht | ht
    · rw [ht]; exact ⟨by simp, by simp⟩
    · exact ht
  unfold xmlSecEncCtxDecrypt
  rw [h]
  simp only []
  rw [if_neg hne.1, if_neg hne.2]
  exact ⟨rfl, rfl, by rw [hf.1, h0], by rw [hf.2.1]⟩

/-- Witness for C10 at a concrete template carrying no Type attribute. -/
theorem decrypt_other_type_frame_witness :
    (xmlSecEncCtxDecrypt envW {} tmplKI).err = none ∧
    (xmlSecEncCtxDecrypt envW {} tmplKI).muts = [] ∧
    (xmlSecEncCtxDecrypt envW {} tmplKI).ctx.replaced = false ∧
    (xmlSecEncCtxDecrypt envW {} tmplKI).ctx.encResult = some "CT" :=
  decrypt_other_type_frame envW {} tmplKI "CT"
    (decToBufferCtx envW {} tmplKI) rfl rfl (Or.inl rfl)

theorem binaryEncrypt_err_of_read (env : EncEnv) (ctx0 : EncCtx)
    (tmpl : XmlNode) (data : String) (e : Err) (hres : ctx0.encResult = none)
    (h : xmlSecEncCtxEncDataNodeRead env { ctx0 with encrypt := true } tmpl =
      .error e) :
    (xmlSecEncCtxBinaryEncrypt env ctx0 tmpl data).err = some e ∧
    (xmlSecEncCtxBinaryEncrypt env ctx0 tmpl data).muts = [] := by
  unfold xmlSecEncCtxBinaryEncrypt
  rw [if_neg (by simp [hres])]
  simp only []
  rw [h]
  exact ⟨rfl, rfl⟩

theorem xmlEncrypt_err_of_read (env : EncEnv) (ctx0 : EncCtx)
    (tmpl target : XmlNode) (e : Err) (hres : ctx0.encResult = none)
    (h : xmlSecEncCtxEncDataNodeRead env { ctx0 with encrypt := true } tmpl =
      .error e) :
    (xmlSecEncCtxXmlEncrypt env ctx0 tmpl target).err = some e ∧
    (xmlSecEncCtxXmlEncrypt env ctx0 tmpl target).muts = [] := by
  unfold xmlSecEncCtxXmlEncrypt
  rw [if_neg (by simp [hres])]
  simp only []
  rw [h]
  exact ⟨rfl, rfl⟩

theorem uriEncrypt_err_of_read (env : EncEnv) (ctx0 : EncCtx)
    (tmpl : XmlNode) (u : String) (e : Err) (hres : ctx0.encResult = none)
    (huriOk : env.setUriOk u = true)
    (h : xmlSecEncCtxEncDataNodeRead env
        { ctx0 with encrypt := true, uri := some u } tmpl = .error e) :
    (xmlSecEncCtxUriEncrypt env ctx0 tmpl u).err = some e ∧
    (xmlSecEncCtxUriEncrypt env ctx0 tmpl u).muts = [] := by
  unfold xmlSecEncCtxUriEncrypt
  rw [if_neg (by simp [hres])]
  simp only []
  rw [if_neg (by simp [huriOk])]
  try simp only []
  rw [h]
  exact ⟨rfl, rfl⟩

theorem decrypt_err_of_read (env : EncEnv) (ctx0 : EncCtx) (node : XmlNode)
    (e : Err) (hres : ctx0.encResult = none)
    (h : xmlSecEncCtxEncDataNodeRead env { ctx0 with encrypt := false } node =
      .error e) :
    xmlSecEncCtxDecryptToBuffer env ctx0 node = .error e ∧
    (xmlSecEncCtxDecrypt env ctx0 node).err = some e ∧
    (xmlSecEncCtxDecrypt env ctx0 node).muts = [] := by
  have h1 : xmlSecEncCtxDecryptToBuffer env ctx0 node = .error e := by
    unfold xmlSecEncCtxDecryptToBuffer
    rw [if_neg (by simp [hres])]
    simp only []
    rw [h]
  refine ⟨h1, ?_, ?_⟩ <;> (unfold xmlSecEncCtxDecrypt; rw [h1])

/-- C5: when no acceptable key is available — the preset key is absent and
the key manager's getKey hook yields nothing, or the resolved key fails
the keyMatch check against the requirements obtained from setKeyReq —
encDataNodeRead fails with error kind KEY_NOT_FOUND, and every top-level
operation started from such a context fails with KEY_NOT_FOUND; the
conclusion holds for every environment, hence for every chain-execution
oracle (no bytes are ever pushed into the cipher), and no DOM mutation
is performed. -/
theorem key_not_found_blocks_execution (env : EncEnv) (ctx : EncCtx)
    (node : XmlNode) (c2 : EncCtx) (m : Transform) (req : KeyReq)
    (hreach : encDataNodeReadPre env ctx node = .ok c2)
    (hm : c2.encMethod = some m)
    (hreq : env.setKeyReq m = some req)
    (hfail : resolvedKey env c2 = none ∨
      ∃ k, resolvedKey env c2 = some k ∧ env.keyMatch k req = false) :
    xmlSecEncCtxEncDataNodeRead env ctx node =
      .error { kind := .keyNotFound } ∧
    (∀ ctx0 data, ctx = { ctx0 with encrypt := true } →
      ctx0.encResult = none →
      (xmlSecEncCtxBinaryEncrypt env ctx0 node data).err =
        some { kind := .keyNotFound } ∧
      (xmlSecEncCtxBinaryEncrypt env ctx0 node data).muts = []) ∧
    (∀ ctx0 target, ctx = { ctx0 with encrypt := true } →
      ctx0.encResult = none →
      (xmlSecEncCtxXmlEncrypt env ctx0 node target).err =
        some { kind := .keyNotFound } ∧
      (xmlSecEncCtxXmlEncrypt env ctx0 node target).muts = []) ∧
    (∀ ctx0 u, ctx = { ctx0 with encrypt := true, uri := some u } →
      ctx0.encResult = none → env.setUriOk u = true →
      (xmlSecEncCtxUriEncrypt env ctx0 node u).err =
        some { kind := .keyNotFound } ∧
      (xmlSecEncCtxUriEncrypt env ctx0 node u).muts = []) ∧
    (∀ ctx0, ctx = { ctx0 with encrypt := false } →
      ctx0.encResult = none →
      xmlSecEncCtxDecryptToBuffer env ctx0 node =
        .error { kind := .keyNotFound } ∧
      (xmlSecEncCtxDecrypt env ctx0 node).err =
        some { kind := .keyNotFound } ∧
      (xmlSecEncCtxDecrypt env ctx0 node).muts = []) := by
  have hkey : encDataNodeReadKey env c2 = .error { kind := .keyNotFound } := by
    unfold encDataNodeReadKey
    rw [hm]
    simp only []
    rw [hreq]
    simp only []
    rcases hfail with hf | ⟨k, hk, hmatch⟩
    · simp [hf]
    · simp [hk, hmatch]
  have hread : xmlSecEncCtxEncDataNodeRead env ctx node =
      .error { kind := .keyNotFound } := by
    unfold xmlSecEncCtxEncDataNodeRead
    unfold encDataNodeReadPre at hreach
    cases h1 : encDataNodeReadStructure env ctx node with
    | error e => rw [h1] at hreach; exact absurd hreach (by simp)
    | ok c1 =>
      rw [h1] at hreach
      simp only [] at hreach ⊢
      rw [hreach]
      simp only []
      rw [hkey]
  refine ⟨hread, ?_, ?_, ?_, ?_⟩
  · intro ctx0 data hctx hres
    exact binaryEncrypt_err_of_read env ctx0 node data _ hres (hctx ▸ hread)
  · intro ctx0 target hctx hres
    exact xmlEncrypt_err_of_read env ctx0 node target _ hres (hctx ▸ hread)
  · intro ctx0 u hctx hres huriOk
    exact uriEncrypt_err_of_read env ctx0 node u _ hres huriOk (hctx ▸ hread)
  · intro ctx0 hctx hres
    exact decrypt_err_of_read env ctx0 node _ hres (hctx ▸ hread)

/-- Witness for C5: a concrete decrypt-side context with no preset key, a
KeyInfo node, and a key manager whose getKey hook returns nothing. -/
theorem key_not_found_blocks_execution_witness :
    xmlSecEncCtxEncDataNodeRead { envW with getKey := some (fun _ => none) }
        { encrypt := true } tmplKI = .error { kind := .keyNotFound } :=
  (key_not_found_blocks_execution { envW with getKey := some (fun _ => none) }
    { encrypt := true } tmplKI
    (encReadPreCtx { envW with getKey := some (fun _ => none) }
      { encrypt := true } tmplKI)
    { klass := .cipher 1, encode := true } { reqId := 0 }
    rfl rfl rfl (Or.inl rfl)).1

/-- C9: on an EncryptedData/EncryptedKey template whose element children
lack the required CipherData at its expected position (after the optional
EncryptionMethod and the optional KeyInfo), encDataNodeRead fails with
error kind INVALID_NODE carrying the annotation CipherData, and every
top-level operation on such a template fails with that same error. -/
theorem missing_cipherdata_fails (env : EncEnv) (ctx : EncCtx)
    (node : XmlNode)
    (hfresh : (ctx.id.isSome || ctx.type.isSome || ctx.mimeType.isSome ||
      ctx.encoding.isSome || ctx.recipient.isSome ||
      ctx.carriedKeyName.isSome || ctx.encMethodNode.isSome ||
      ctx.keyInfoNode.isSome) = false)
    (hmiss : ∀ c rest, childrenAtCipherData node = c :: rest →
      xmlSecCheckNodeName c xmlSecNodeCipherData xmlSecEncNs = false) :
    xmlSecEncCtxEncDataNodeRead env ctx node =
      .error { kind := .invalidNode, node := some xmlSecNodeCipherData } ∧
    (∀ ctx0 data, ctx = { ctx0 with encrypt := true } →
      ctx0.encResult = none →
      (xmlSecEncCtxBinaryEncrypt env ctx0 node data).err =
        some { kind := .invalidNode, node := some xmlSecNodeCipherData } ∧
      (xmlSecEncCtxBinaryEncrypt env ctx0 node data).muts = []) ∧
    (∀ ctx0 target, ctx = { ctx0 with encrypt := true } →
      ctx0.encResult = none →
      (xmlSecEncCtxXmlEncrypt env ctx0 node target).err =
        some { kind := .invalidNode, node := some xmlSecNodeCipherData } ∧
      (xmlSecEncCtxXmlEncrypt env ctx0 node target).muts = []) ∧
    (∀ ctx0 u, ctx = { ctx0 with encrypt := true, uri := some u } →
      ctx0.encResult = none → env.setUriOk u = true →
      (xmlSecEncCtxUriEncrypt env ctx0 node u).err =
        some { kind := .invalidNode, node := some xmlSecNodeCipherData } ∧
      (xmlSecEncCtxUriEncrypt env ctx0 node u).muts = []) ∧
    (∀ ctx0, ctx = { ctx0 with encrypt := false } →
      ctx0.encResult = none →
      xmlSecEncCtxDecryptToBuffer env ctx0 node =
        .error { kind := .invalidNode, node := some xmlSecNodeCipherData } ∧
      (xmlSecEncCtxDecrypt env ctx0 node).err =
        some { kind := .invalidNode, node := some xmlSecNodeCipherData } ∧
      (xmlSecEncCtxDecrypt env ctx0 node).muts = []) := by
  have hread : xmlSecEncCtxEncDataNodeRead env ctx node =
      .error { kind := .invalidNode, node := some xmlSecNodeCipherData } := by
    have hstruct : encDataNodeReadStructure env ctx node =
        .error { kind := .invalidNode, node := some xmlSecNodeCipherData } := by
      unfold encDataNodeReadStructure
      rw [if_neg (by simp [hfresh])]
      simp only []
      cases hcd : childrenAtCipherData node with
      | nil => rfl
      | cons c rest =>
        simp only []
        rw [if_neg (by simp [hmiss c rest hcd])]
    unfold xmlSecEncCtxEncDataNodeRead
    rw [hstruct]
  refine ⟨hread, ?_, ?_, ?_, ?_⟩
  · intro ctx0 data hctx hres
    exact binaryEncrypt_err_of_read env ctx0 node data _ hres (hctx ▸ hread)
  · intro ctx0 target hctx hres
    exact xmlEncrypt_err_of_read env ctx0 node target _ hres (hctx ▸ hread)
  · intro ctx0 u hctx hres huriOk
    exact uriEncrypt_err_of_read env ctx0 node u _ hres huriOk (hctx ▸ hread)
  · intro ctx0 hctx hres
    exact decrypt_err_of_read env ctx0 node _ hres (hctx ▸ hread)

/-- Witness for C9 at a concrete template with no CipherData child. -/
theorem missing_cipherdata_fails_witness :
    xmlSecEncCtxEncDataNodeRead envW { encrypt := true } tmplNoCD =
      .error { kind := .invalidNode, node := some xmlSecNodeCipherData } :=
  (missing_cipherdata_fails envW { encrypt := true } tmplNoCD rfl
    (fun c rest hcr => by
      rw [show childrenAtCipherData tmplNoCD = [] from rfl] at hcr
      exact absurd hcr (by simp))).1

/-- C4: after a successful encDataNodeRead in encrypt mode on a fresh
chain: when the template's CipherData held a CipherValue node
(cipherValueNode set), the last transform of the chain is a base64
encoder with encode set and resultBase64Encoded is set; otherwise — a
CipherReference template or a result destined for a URI consumer
(cipherValueNode unset) — no base64 encoder is appended: the chain is
exactly the instantiated encryption method, and resultBase64Encoded
stays clear. -/
theorem encRead_base64_insertion (env : EncEnv) (ctx : EncCtx)
    (node : XmlNode) (c' : EncCtx) (henc : ctx.encrypt = true)
    (hch : ctx.chain = []) (hrb : ctx.resultBase64Encoded = false)
    (h : xmlSecEncCtxEncDataNodeRead env ctx node = .ok c') :
    (c'.cipherValueNode.isSome = true →
      c'.chain.getLast? = some { klass := .base64, encode := true } ∧
      c'.resultBase64Encoded = true) ∧
    (c'.cipherValueNode.isSome = false →
      (∃ m, c'.encMethod = some m ∧ c'.chain = [m]) ∧
      c'.resultBase64Encoded = false) := by
  unfold xmlSecEncCtxEncDataNodeRead at h
  cases h1 : encDataNodeReadStructure env ctx node with
  | error e => rw [h1] at h; exact absurd h (by simp)
  | ok c1 =>
    rw [h1] at h
    simp only [] at h
    cases h2 : encDataNodeReadMethod env c1 with
    | error e => rw [h2] at h; exact absurd h (by simp)
    | ok c2 =>
      rw [h2] at h
      simp only [] at h
      cases h3 : encDataNodeReadKey env c2 with
      | error e => rw [h3] at h; exact absurd h (by simp)
      | ok c3 =>
        rw [h3] at h
        simp only [Except.ok.injEq] at h
        subst h
        obtain ⟨he1, hmo1, hem1, hk1, hr1, hres1, hrb1, hor1, henc1⟩ :=
          readStructure_shape env ctx node c1 h1
        obtain ⟨⟨m2, hm2a, hm2b⟩, hcv2, hu2, he2, hmo2, hk2, hki2, ht2, hr2,
          hres2, hrb2⟩ := method_shape env c1 c2 h2
        obtain ⟨⟨k3, hk3a, hk3b, hk3c⟩, hcv3, hu3, he3, hmo3, hki3, ht3, hr3,
          hres3, hrb3⟩ := key_shape env c2 c3 m2 c1.chain hm2a hm2b h3
        have hc1chain : c1.chain = [] := by
          rw [(henc1 henc).1, hch]
        have he3' : c3.encrypt = true := by
          rw [he3, he2, he1, henc]
        have hchain3 : c3.chain = [{ m2 with key := some k3 }] := by
          rw [hk3c, hc1chain]
          rfl
        have hrb3' : c3.resultBase64Encoded = false := by
          rw [hrb3, hrb2, hrb1, hrb]
        by_cases hcv : c3.cipherValueNode.isSome = true
        · have hb : encDataNodeReadBase64 c3 = { c3 with
              chain := c3.chain ++ [{ klass := .base64, encode := true }],
              resultBase64Encoded := true } := by
            unfold encDataNodeReadBase64
            rw [if_pos (by simp [he3', hcv])]
          rw [hb]
          constructor
          · intro _
            exact ⟨by simp, rfl⟩
          · intro hx
            simp only [] at hx
            rw [hx] at hcv
            exact absurd hcv (by simp)
        · have hb : encDataNodeReadBase64 c3 = c3 := by
            unfold encDataNodeReadBase64
            rw [if_neg (by simp_all)]
          rw [hb]
          constructor
          · intro hx
            exact absurd hx hcv
          · intro _
            exact ⟨⟨{ m2 with key := some k3 }, hk3b, hchain3⟩, hrb3'⟩

/-- Witness for C4 at a concrete encrypt-mode template with a
CipherData/CipherValue sink. -/
theorem encRead_base64_insertion_witness :
    (encReadCtx envW { ctxW with encrypt := true } tmplCV).chain.getLast? =
      some { klass := .base64, encode := true } ∧
    (encReadCtx envW { ctxW with encrypt := true }
      tmplCV).resultBase64Encoded = true :=
  (encRead_base64_insertion envW { ctxW with encrypt := true } tmplCV
    (encReadCtx envW { ctxW with encrypt := true } tmplCV)
    rfl rfl rfl rfl).1 rfl

end XmlSec
